import Mathlib

/-!
Shallow embedding of `machine-learning/utils/ml_analyzer.py`:
the behavior dispatcher `_predict_internal`, the bounded execution
wrapper `_predict`, and the landmark region-crop geometry
(`_eye_crop`, `_hand_crop`, `_foot_crop`).

Python floats are modelled as rationals (`ℚ`); all score arithmetic in
the source is exact on the inputs the claims mention.  Per-frame
decode/extraction is modelled by the observable outcome of the loop
body (`FrameResult`): an exception, a miss (extractor returned `None`),
or a hit (the detection counter is incremented).
-/

namespace MLAnalyzer

/-- Outcome of processing one frame inside a batch loop of
`_predict_internal`: the `try` body raised (`err`), decoded but the
extractor returned `None` (`miss`), or the extractor succeeded (`hit`). -/
inductive FrameResult where
  | err
  | miss
  | hit
deriving DecidableEq, Repr

/-- A submitted frame, abstracted by the outcome each of the four
extractors would produce on it (`_eye_crop`, `_pose_xy`, `_hand_crop`,
`_foot_crop` after `_decode_image`). -/
structure Frame where
  eye : FrameResult
  pose : FrameResult
  hand : FrameResult
  foot : FrameResult
deriving DecidableEq, Repr

/-- The JSON payload handed to the dispatcher: a number
(`isinstance(data, (int, float))`), a list, or any other value. -/
inductive MLData where
  | num (x : ℚ)
  | flist (fs : List Frame)
  | other
deriving DecidableEq, Repr

/-- The JSON object a prediction returns.  Optional fields are present
only on the branches that set them, as in the source. -/
structure PredResult where
  predicted_score : ℚ
  confidence : ℚ
  status : String
  message : String
  frames_processed : Option Nat := none
  valid_detections : Option Nat := none
  pose_detections : Option Nat := none
  hand_detections : Option Nat := none
  foot_detections : Option Nat := none
  feature_count : Option ℚ := none
deriving DecidableEq, Repr

/-- The two `random.uniform` draws made when `fallback_result` is
built: `random.uniform(0.1, 0.9)` and `random.uniform(0.6, 0.95)`. -/
structure RandomDraws where
  score : ℚ
  conf : ℚ
deriving DecidableEq, Repr

/-- `fallback_result` from `_predict_internal`. -/
def fallbackResult (rnd : RandomDraws) : PredResult :=
  { predicted_score := rnd.score
    confidence := rnd.conf
    status := "success"
    message := "Demo prediction (random)" }

/-- The detection counter of a batch loop: how many frames in the list
reach the `+= 1` line (decode and extraction succeed). -/
def countHits (sel : Frame → FrameResult) (frames : List Frame) : Nat :=
  frames.countP (fun f => sel f == FrameResult.hit)

/-- `_predict_internal(behavior, data, models)`.  The `models` argument
is kept with the signature of the source; the branches mirror the five
`if`/`elif` arms and the final `else`. -/
def predictInternal {M : Type} (behavior : String) (data : MLData)
    (models : M) (rnd : RandomDraws) : PredResult :=
  if behavior = "rapid_talking" then
    match data with
    | MLData.num x =>
      let feature := x
      let score := if feature > 0 then min (feature / 100) 1 else (1/10 : ℚ)
      { predicted_score := score
        confidence := 4/5
        status := "success"
        feature_count := some feature
        message := "Audio analysis complete" }
    | MLData.flist fs =>
      let feature : ℚ := fs.length
      let score := if feature > 0 then min (feature / 100) 1 else (1/10 : ℚ)
      { predicted_score := score
        confidence := 4/5
        status := "success"
        feature_count := some feature
        message := "Audio analysis complete" }
    | MLData.other => fallbackResult rnd
  else if behavior = "eye_gaze" then
    match data with
    | MLData.flist fs =>
      if fs = [] then fallbackResult rnd
      else
        let valid_crops := countHits Frame.eye (fs.take 10)
        let score := if fs = [] then (1/10 : ℚ)
          else min ((valid_crops : ℚ) / (fs.length : ℚ)) 1
        { predicted_score := score
          confidence := 3/4
          status := "success"
          frames_processed := some fs.length
          valid_detections := some valid_crops
          message := "Eye gaze analysis complete" }
    | _ => fallbackResult rnd
  else if behavior = "sit_stand" then
    match data with
    | MLData.flist fs =>
      if fs = [] then fallbackResult rnd
      else
        let pose_dets := countHits Frame.pose (fs.take 10)
        let score := if fs = [] then (1/10 : ℚ)
          else min ((pose_dets : ℚ) / (fs.length : ℚ)) 1
        { predicted_score := score
          confidence := 7/10
          status := "success"
          frames_processed := some fs.length
          pose_detections := some pose_dets
          message := "Sit-stand analysis complete" }
    | _ => fallbackResult rnd
  else if behavior = "tapping_hands" then
    match data with
    | MLData.flist fs =>
      if fs = [] then fallbackResult rnd
      else
        let hand_dets := countHits Frame.hand (fs.take 10)
        let score := if fs = [] then (1/10 : ℚ)
          else min ((hand_dets : ℚ) / (fs.length : ℚ)) 1
        { predicted_score := score
          confidence := 4/5
          status := "success"
          frames_processed := some fs.length
          hand_detections := some hand_dets
          message := "Hand tapping analysis complete" }
    | _ => fallbackResult rnd
  else if behavior = "tapping_feet" then
    match data with
    | MLData.flist fs =>
      if fs = [] then fallbackResult rnd
      else
        let foot_dets := countHits Frame.foot (fs.take 10)
        let score := if fs = [] then (1/10 : ℚ)
          else min ((foot_dets : ℚ) / (fs.length : ℚ)) 1
        { predicted_score := score
          confidence := 3/4
          status := "success"
          frames_processed := some fs.length
          foot_detections := some foot_dets
          message := "Foot tapping analysis complete" }
    | _ => fallbackResult rnd
  else
    { predicted_score := 0
      confidence := 0
      status := "error"
      message := "Unknown behavior type: " ++ behavior }

/-- The four image-based behavior labels. -/
def imageBehaviors : List String :=
  ["eye_gaze", "sit_stand", "tapping_hands", "tapping_feet"]

/-- Which extractor outcome a given image-based behavior's loop reads. -/
def selOf : String → Frame → FrameResult
  | "eye_gaze" => Frame.eye
  | "sit_stand" => Frame.pose
  | "tapping_hands" => Frame.hand
  | "tapping_feet" => Frame.foot
  | _ => fun _ => FrameResult.err

/-- The execution environment of the `_predict` wrapper: whether the
`signal` module imports (`except ImportError`) and whether the platform
has `SIGALRM` (`hasattr(signal, 'SIGALRM')`). -/
structure Platform where
  hasSignal : Bool
  hasSIGALRM : Bool
deriving DecidableEq, Repr

/-- How a call to `_predict_internal` behaves when run under the
wrapper: it returns `r` within the 30-second budget, it takes longer
than the budget and would eventually return `r`, or it raises an
exception whose `str(e)` is `msg`. -/
inductive RunOutcome where
  | ok (r : PredResult)
  | exceedsBudget (r : PredResult)
  | raises (msg : String)
deriving DecidableEq, Repr

/-- The fixed result returned when the `SIGALRM` handler fires. -/
def timeoutResult : PredResult :=
  { predicted_score := 3/10
    confidence := 1/2
    status := "timeout"
    message := "Prediction timed out, using fallback" }

/-- The result built by the outermost `except Exception` handler. -/
def errorResult (msg : String) : PredResult :=
  { predicted_score := 3/10
    confidence := 1/2
    status := "error"
    message := "Prediction failed: " ++ msg }

/-- `_predict(behavior, data)`: control flow of the bounded wrapper.
With `signal` and `SIGALRM` available, the alarm converts an
over-budget run into `timeoutResult`; without `SIGALRM` (or without
`signal`), the source runs the dispatcher with no deadline, so an
over-budget run simply returns its eventual result.  Any exception
reaches the outermost handler and becomes `errorResult`. -/
def predict (plat : Platform) (run : RunOutcome) : PredResult :=
  if plat.hasSignal then
    if plat.hasSIGALRM then
      match run with
      | RunOutcome.ok r => r
      | RunOutcome.exceedsBudget _ => timeoutResult
      | RunOutcome.raises msg => errorResult msg
    else
      match run with
      | RunOutcome.ok r => r
      | RunOutcome.exceedsBudget r => r
      | RunOutcome.raises msg => errorResult msg
  else
    match run with
    | RunOutcome.ok r => r
    | RunOutcome.exceedsBudget r => r
    | RunOutcome.raises msg => errorResult msg

/-- `min` over a Python list (left fold, as `min(xs)` computes). -/
def listMin : List ℚ → ℚ
  | [] => 0
  | x :: xs => xs.foldl min x

/-- `max` over a Python list. -/
def listMax : List ℚ → ℚ
  | [] => 0
  | x :: xs => xs.foldl max x

/-- Shared geometry of `_eye_crop`, `_hand_crop` and `_foot_crop` once
landmarks are in pixel coordinates: pad the landmark bounding box by
`pad` (10 for eye/hand, 20 for foot), clamp it to the `w × h` image,
reject if either padded clamped dimension is below 10, slice with
`int()`-truncated bounds and reject an empty slice.  Returns the box
`(xMin, xMax, yMin, yMax)` of the crop, or `none` ("not found"). -/
def regionCrop (pad : ℚ) (w h : ℕ) (landmarks : Option (List (ℚ × ℚ))) :
    Option (ℚ × ℚ × ℚ × ℚ) :=
  match landmarks with
  | none => none
  | some pts =>
    let xs := pts.map Prod.fst
    let ys := pts.map Prod.snd
    let xMin := max (listMin xs - pad) 0
    let xMax := min (listMax xs + pad) (w : ℚ)
    let yMin := max (listMin ys - pad) 0
    let yMax := min (listMax ys + pad) (h : ℚ)
    if xMax - xMin < 10 ∨ yMax - yMin < 10 then none
    else if ⌊yMax⌋ ≤ ⌊yMin⌋ ∨ ⌊xMax⌋ ≤ ⌊xMin⌋ then none
    else some (xMin, xMax, yMin, yMax)

/-- `_eye_crop`: pad 10 around the `_EYE_IDXS` face-mesh landmarks
(`landmarks = none` models `not results.multi_face_landmarks`). -/
def eyeCrop (w h : ℕ) (landmarks : Option (List (ℚ × ℚ))) :
    Option (ℚ × ℚ × ℚ × ℚ) :=
  regionCrop 10 w h landmarks

/-- `_hand_crop`: pad 10 around the first detected hand's landmarks. -/
def handCrop (w h : ℕ) (landmarks : Option (List (ℚ × ℚ))) :
    Option (ℚ × ℚ × ℚ × ℚ) :=
  regionCrop 10 w h landmarks

/-- `_foot_crop`: pad 20 around the two ankle pose landmarks. -/
def footCrop (w h : ℕ) (landmarks : Option (List (ℚ × ℚ))) :
    Option (ℚ × ℚ × ℚ × ℚ) :=
  regionCrop 20 w h landmarks

/-- `sub` occurs inside `s` (the claim's "message containing the
original error text"). -/
def containsStr (s sub : String) : Prop :=
  ∃ pre post, s = pre ++ sub ++ post

/-- Width of the padded, image-clamped bounding box
(`x_max - x_min` in the source). -/
def boxW (pad : ℚ) (w : ℕ) (pts : List (ℚ × ℚ)) : ℚ :=
  min (listMax (pts.map Prod.fst) + pad) (w : ℚ) -
    max (listMin (pts.map Prod.fst) - pad) 0

/-- Height of the padded, image-clamped bounding box
(`y_max - y_min` in the source). -/
def boxH (pad : ℚ) (h : ℕ) (pts : List (ℚ × ℚ)) : ℚ :=
  min (listMax (pts.map Prod.snd) + pad) (h : ℚ) -
    max (listMin (pts.map Prod.snd) - pad) 0

/-- All five behavior labels the dispatcher recognizes. -/
def knownBehaviors : List String :=
  "rapid_talking" :: imageBehaviors

/-- A frame on which every extractor succeeds. -/
def allHit : Frame :=
  { eye := FrameResult.hit, pose := FrameResult.hit
    hand := FrameResult.hit, foot := FrameResult.hit }

/-- A corrupted frame: the loop body raises for every extractor. -/
def errFrame : Frame :=
  { eye := FrameResult.err, pose := FrameResult.err
    hand := FrameResult.err, foot := FrameResult.err }

lemma countHits_take_le (sel : Frame → FrameResult) (fs : List Frame) :
    countHits sel (fs.take 10) ≤ 10 := by
  have h1 : countHits sel (fs.take 10) ≤ (fs.take 10).length :=
    List.countP_le_length _
  exact le_trans h1 (by rw [List.length_take]; exact min_le_left _ _)

lemma min_score_bound (c n : ℕ) (hc : c ≤ 10) (hn : 10 < n) :
    min ((c : ℚ) / (n : ℚ)) 1 ≤ 10 / (n : ℚ) ∧
    min ((c : ℚ) / (n : ℚ)) 1 < 1 := by
  have hn0 : (0 : ℚ) < (n : ℚ) := by
    have h0 : 0 < n := lt_trans (by norm_num) hn
    exact_mod_cast h0
  have h1 : (c : ℚ) / (n : ℚ) ≤ 10 / (n : ℚ) :=
    (div_le_div_iff_of_pos_right hn0).mpr (by exact_mod_cast hc)
  have h2 : 10 / (n : ℚ) < 1 := (div_lt_one hn0).mpr (by exact_mod_cast hn)
  exact ⟨le_trans (min_le_left _ _) h1,
    lt_of_le_of_lt (le_trans (min_le_left _ _) h1) h2⟩

lemma score_bound_of_eq (c n : ℕ) {q : ℚ}
    (hq : q = min ((c : ℚ) / (n : ℚ)) 1) (hc : c ≤ 10) (hn : 10 < n) :
    q ≤ 10 / (n : ℚ) ∧ q < 1 := by
  subst hq
  exact min_score_bound c n hc hn

/-- C10: for every behavior label, payload and random draws, running
the dispatcher with any two model registries — of any types, e.g. a
fully populated mapping and an empty one — produces identical
Prediction Results: the `models` argument is never consulted on any
path of `_predict_internal`. -/
theorem C10_models_never_consulted {M₁ M₂ : Type} (m1 : M₁) (m2 : M₂)
    (behavior : String) (data : MLData) (rnd : RandomDraws) :
    predictInternal behavior data m1 rnd = predictInternal behavior data m2 rnd :=
  rfl

/-- C3: dispatching a behavior label outside the five recognized
labels returns exactly score 0.0, confidence 0.0, status "error", with
a message that names the unrecognized label. -/
theorem C3_unknown_behavior {M : Type} (behavior : String) (data : MLData)
    (models : M) (rnd : RandomDraws) (hb : behavior ∉ knownBehaviors) :
    predictInternal behavior data models rnd =
      { predicted_score := 0
        confidence := 0
        status := "error"
        message := "Unknown behavior type: " ++ behavior } ∧
    containsStr (predictInternal behavior data models rnd).message behavior := by
  simp only [knownBehaviors, imageBehaviors, List.mem_cons, List.mem_singleton,
    not_or] at hb
  obtain ⟨h1, h2, h3, h4, h5⟩ := hb
  constructor
  · simp [predictInternal, h1, h2, h3, h4, h5]
  · exact ⟨"Unknown behavior type: ", "", by
      simp [predictInternal, h1, h2, h3, h4, h5]⟩

/-- Witness for C3 at the label "unknown_behavior". -/
theorem C3_unknown_behavior_witness :
    "unknown_behavior" ∉ knownBehaviors ∧
    (predictInternal "unknown_behavior" MLData.other () (⟨1/2, 7/10⟩ : RandomDraws) =
      { predicted_score := 0
        confidence := 0
        status := "error"
        message := "Unknown behavior type: " ++ "unknown_behavior" } ∧
    containsStr (predictInternal "unknown_behavior" MLData.other ()
      (⟨1/2, 7/10⟩ : RandomDraws)).message "unknown_behavior") :=
  ⟨by decide,
   C3_unknown_behavior "unknown_behavior" MLData.other () ⟨1/2, 7/10⟩ (by decide)⟩

/-- C2: the prediction entry point is total — every platform and every
run outcome yield a structured Prediction Result — and an unexpected
internal exception is caught at the outermost boundary and converted
to score 0.3, confidence 0.5, status "error", with the original error
text contained in the message. -/
theorem C2_exception_boundary (plat : Platform) (msg : String) (run : RunOutcome) :
    (∃ r : PredResult, predict plat run = r) ∧
    predict plat (RunOutcome.raises msg) = errorResult msg ∧
    (predict plat (RunOutcome.raises msg)).predicted_score = 3/10 ∧
    (predict plat (RunOutcome.raises msg)).confidence = 1/2 ∧
    (predict plat (RunOutcome.raises msg)).status = "error" ∧
    containsStr (predict plat (RunOutcome.raises msg)).message msg := by
  have heq : predict plat (RunOutcome.raises msg) = errorResult msg := by
    obtain ⟨hs, ha⟩ := plat
    cases hs <;> cases ha <;> simp [predict]
  refine ⟨⟨predict plat run, rfl⟩, heq, ?_, ?_, ?_, ?_⟩ <;>
    rw [heq]
  · rfl
  · rfl
  · rfl
  · exact ⟨"Prediction failed: ", "", by simp [errorResult]⟩

/-- C4: for the rapid_talking behavior, a numeric payload uses the
number itself as feature and a list payload uses its length; the score
is min(feature / 100, 1) for positive feature and 0.1 otherwise;
confidence is fixed at 0.8; in particular 250 gives score 1, 0 gives
score 0.1, and a 40-item list gives feature_count 40 and score 0.4. -/
theorem C4_rapid_talking {M : Type} (models : M) (rnd : RandomDraws)
    (x : ℚ) (fs : List Frame) :
    (predictInternal "rapid_talking" (MLData.num x) models rnd).predicted_score
      = (if x > 0 then min (x / 100) 1 else 1/10) ∧
    (predictInternal "rapid_talking" (MLData.num x) models rnd).confidence = 4/5 ∧
    (predictInternal "rapid_talking" (MLData.num x) models rnd).feature_count
      = some x ∧
    (predictInternal "rapid_talking" (MLData.flist fs) models rnd).predicted_score
      = (if (fs.length : ℚ) > 0 then min ((fs.length : ℚ) / 100) 1 else 1/10) ∧
    (predictInternal "rapid_talking" (MLData.flist fs) models rnd).confidence
      = 4/5 ∧
    (predictInternal "rapid_talking" (MLData.flist fs) models rnd).feature_count
      = some (fs.length : ℚ) ∧
    (predictInternal "rapid_talking" (MLData.num 250) models rnd).predicted_score
      = 1 ∧
    (predictInternal "rapid_talking" (MLData.num 0) models rnd).predicted_score
      = 1/10 ∧
    (predictInternal "rapid_talking" (MLData.flist (List.replicate 40 allHit))
      models rnd).feature_count = some 40 ∧
    (predictInternal "rapid_talking" (MLData.flist (List.replicate 40 allHit))
      models rnd).predicted_score = 2/5 := by
  refine ⟨rfl, rfl, rfl, rfl, rfl, rfl, ?_, ?_, ?_, ?_⟩ <;>
    simp [predictInternal] <;> norm_num

/-- C5: for every recognized image-based behavior, an empty sequence
or a payload of the wrong shape (a number, or any other value) yields
the demo fallback: status "success" (never "error"), score equal to
the uniform(0.1, 0.9) draw, confidence equal to the uniform(0.6, 0.95)
draw, and the demo message. -/
theorem C5_shape_mismatch_fallback {M : Type} (behavior : String) (models : M)
    (rnd : RandomDraws) (x : ℚ) (hb : behavior ∈ imageBehaviors)
    (hs1 : 1/10 ≤ rnd.score) (hs2 : rnd.score ≤ 9/10)
    (hc1 : 3/5 ≤ rnd.conf) (hc2 : rnd.conf ≤ 19/20) :
    predictInternal behavior (MLData.flist []) models rnd = fallbackResult rnd ∧
    predictInternal behavior (MLData.num x) models rnd = fallbackResult rnd ∧
    predictInternal behavior MLData.other models rnd = fallbackResult rnd ∧
    (fallbackResult rnd).status = "success" ∧
    (fallbackResult rnd).status ≠ "error" ∧
    1/10 ≤ (fallbackResult rnd).predicted_score ∧
    (fallbackResult rnd).predicted_score ≤ 9/10 ∧
    3/5 ≤ (fallbackResult rnd).confidence ∧
    (fallbackResult rnd).confidence ≤ 19/20 ∧
    (fallbackResult rnd).message = "Demo prediction (random)" := by
  simp only [imageBehaviors, List.mem_cons, List.mem_singleton,
    List.not_mem_nil, or_false] at hb
  refine ⟨?_, ?_, ?_, rfl, by simp [fallbackResult], hs1, hs2, hc1, hc2, rfl⟩ <;>
    rcases hb with h | h | h | h <;> subst h <;> rfl

/-- Witness for C5 at tapping_hands with draws (1/2, 7/10). -/
theorem C5_shape_mismatch_fallback_witness :
    "tapping_hands" ∈ imageBehaviors ∧
    (1/10 ≤ (⟨1/2, 7/10⟩ : RandomDraws).score ∧
      (⟨1/2, 7/10⟩ : RandomDraws).score ≤ 9/10 ∧
      3/5 ≤ (⟨1/2, 7/10⟩ : RandomDraws).conf ∧
      (⟨1/2, 7/10⟩ : RandomDraws).conf ≤ 19/20) ∧
    predictInternal "tapping_hands" (MLData.flist []) ()
      (⟨1/2, 7/10⟩ : RandomDraws) = fallbackResult ⟨1/2, 7/10⟩ ∧
    predictInternal "tapping_hands" (MLData.num 5) ()
      (⟨1/2, 7/10⟩ : RandomDraws) = fallbackResult ⟨1/2, 7/10⟩ :=
  ⟨by decide, ⟨by norm_num, by norm_num, by norm_num, by norm_num⟩,
   (C5_shape_mismatch_fallback "tapping_hands" () ⟨1/2, 7/10⟩ 5 (by decide)
      (by norm_num) (by norm_num) (by norm_num) (by norm_num)).1,
   (C5_shape_mismatch_fallback "tapping_hands" () ⟨1/2, 7/10⟩ 5 (by decide)
      (by norm_num) (by norm_num) (by norm_num) (by norm_num)).2.1⟩

/-- C6 counterexample: with the legitimate uniform(0.1, 0.9) draw 1/2,
an empty frame sequence for eye_gaze yields predicted_score 1/2, not
the claimed exact 0.1: the 0.1 floor of the score formula is dead
code, because empty sequences take the fallback branch first. -/
theorem C6_counterexample :
    (predictInternal "eye_gaze" (MLData.flist []) ()
      (⟨1/2, 7/10⟩ : RandomDraws)).predicted_score ≠ 1/10 := by
  have hval : (predictInternal "eye_gaze" (MLData.flist []) ()
      (⟨1/2, 7/10⟩ : RandomDraws)).predicted_score = 1/2 := rfl
  rw [hval]
  norm_num

/-- C6 amended: for every image-based behavior, an empty frame
sequence yields the random demo fallback result, whose score is the
uniform(0.1, 0.9) draw — not the exact 0.1 floor, which is unreachable
for empty sequences. -/
theorem C6_empty_sequence_amended {M : Type} (behavior : String) (models : M)
    (rnd : RandomDraws) (hb : behavior ∈ imageBehaviors) :
    predictInternal behavior (MLData.flist []) models rnd = fallbackResult rnd ∧
    (predictInternal behavior (MLData.flist []) models rnd).predicted_score
      = rnd.score ∧
    (predictInternal behavior (MLData.flist []) models rnd).status = "success" := by
  simp only [imageBehaviors, List.mem_cons, List.mem_singleton,
    List.not_mem_nil, or_false] at hb
  refine ⟨?_, ?_, ?_⟩ <;> rcases hb with h | h | h | h <;> subst h <;> rfl

/-- Witness for amended C6 at sit_stand with draws (3/10, 4/5). -/
theorem C6_empty_sequence_amended_witness :
    "sit_stand" ∈ imageBehaviors ∧
    (predictInternal "sit_stand" (MLData.flist []) ()
        (⟨3/10, 4/5⟩ : RandomDraws) = fallbackResult ⟨3/10, 4/5⟩ ∧
      (predictInternal "sit_stand" (MLData.flist []) ()
        (⟨3/10, 4/5⟩ : RandomDraws)).predicted_score
        = (⟨3/10, 4/5⟩ : RandomDraws).score ∧
      (predictInternal "sit_stand" (MLData.flist []) ()
        (⟨3/10, 4/5⟩ : RandomDraws)).status = "success") :=
  ⟨by decide, C6_empty_sequence_amended "sit_stand" () ⟨3/10, 4/5⟩ (by decide)⟩

/-- C7 counterexample: on a platform whose signal module lacks SIGALRM
(the source's Windows branch), a dispatcher run that exceeds the
30-second budget is not converted to the timeout result — the wrapper
runs without any deadline and returns the dispatcher's eventual
result, refuting "this budget is enforced on every target platform". -/
theorem C7_counterexample :
    predict ⟨true, false⟩
      (RunOutcome.exceedsBudget (fallbackResult ⟨1/2, 7/10⟩)) ≠ timeoutResult := by
  simp only [predict, Bool.false_eq_true, if_false, if_true]
  intro h
  have := congrArg PredResult.status h
  simp [fallbackResult, timeoutResult] at this

/-- C7 amended: when signal and SIGALRM are available, a dispatcher
run exceeding the 30-second budget returns exactly score 0.3,
confidence 0.5, status "timeout"; but on platforms without SIGALRM (or
without the signal module) the wrapper silently skips enforcement and
returns the dispatcher's eventual result. -/
theorem C7_timeout_amended (plat : Platform) (r : PredResult)
    (h : plat.hasSignal = true ∧ plat.hasSIGALRM = true) :
    predict plat (RunOutcome.exceedsBudget r) = timeoutResult ∧
    timeoutResult.predicted_score = 3/10 ∧
    timeoutResult.confidence = 1/2 ∧
    timeoutResult.status = "timeout" ∧
    (∀ plat2 : Platform, plat2.hasSIGALRM = false →
      predict plat2 (RunOutcome.exceedsBudget r) = r) := by
  obtain ⟨h1, h2⟩ := h
  refine ⟨by simp [predict, h1, h2], rfl, rfl, rfl, ?_⟩
  intro plat2 hp
  obtain ⟨hs, ha⟩ := plat2
  cases hs <;> simp_all [predict]

/-- Witness for amended C7 on a SIGALRM-capable platform. -/
theorem C7_timeout_amended_witness :
    ((⟨true, true⟩ : Platform).hasSignal = true ∧
      (⟨true, true⟩ : Platform).hasSIGALRM = true) ∧
    (predict ⟨true, true⟩ (RunOutcome.exceedsBudget (fallbackResult ⟨3/10, 4/5⟩))
        = timeoutResult ∧
      timeoutResult.predicted_score = 3/10 ∧
      timeoutResult.confidence = 1/2 ∧
      timeoutResult.status = "timeout" ∧
      (∀ plat2 : Platform, plat2.hasSIGALRM = false →
        predict plat2 (RunOutcome.exceedsBudget (fallbackResult ⟨3/10, 4/5⟩))
          = fallbackResult ⟨3/10, 4/5⟩)) :=
  ⟨⟨rfl, rfl⟩,
   C7_timeout_amended ⟨true, true⟩ (fallbackResult ⟨3/10, 4/5⟩) ⟨rfl, rfl⟩⟩

/-- C1: for every image-based behavior and non-empty frame list, the
result's frames_processed is the original submitted count, the score
is min(detections over the first 10 frames / original count, 1), the
result depends only on the first 10 frames and the length (frames past
index 9 are never decoded or counted), and with more than 10 frames
the score is at most 10/original_count and strictly below 1. -/
theorem C1_frame_cap {M : Type} (behavior : String) (models : M)
    (rnd : RandomDraws) (fs : List Frame)
    (hb : behavior ∈ imageBehaviors) (hfs : fs ≠ []) :
    (predictInternal behavior (MLData.flist fs) models rnd).frames_processed
      = some fs.length ∧
    (predictInternal behavior (MLData.flist fs) models rnd).predicted_score
      = min ((countHits (selOf behavior) (fs.take 10) : ℚ) / (fs.length : ℚ)) 1 ∧
    (∀ fs2 : List Frame, fs2.take 10 = fs.take 10 → fs2.length = fs.length →
      predictInternal behavior (MLData.flist fs2) models rnd
        = predictInternal behavior (MLData.flist fs) models rnd) ∧
    (10 < fs.length →
      (predictInternal behavior (MLData.flist fs) models rnd).predicted_score
          ≤ 10 / (fs.length : ℚ) ∧
      (predictInternal behavior (MLData.flist fs) models rnd).predicted_score
          < 1) := by
  have hne : ∀ fs2 : List Frame, fs2.length = fs.length → fs2 ≠ [] := by
    intro fs2 hl hh
    subst hh
    exact hfs (List.length_eq_zero.mp hl.symm)
  simp only [imageBehaviors, List.mem_cons, List.mem_singleton,
    List.not_mem_nil, or_false] at hb
  rcases hb with h | h | h | h <;> subst h
  · refine ⟨by simp [predictInternal, hfs], by simp [predictInternal, selOf, hfs],
      fun fs2 ht hl => ?_, fun h10 => ?_⟩
    · simp [predictInternal, hfs, hne fs2 hl, ht, hl]
    · exact score_bound_of_eq (countHits Frame.eye (fs.take 10)) fs.length
        (by simp [predictInternal, selOf, hfs]) (countHits_take_le _ _) h10
  · refine ⟨by simp [predictInternal, hfs], by simp [predictInternal, selOf, hfs],
      fun fs2 ht hl => ?_, fun h10 => ?_⟩
    · simp [predictInternal, hfs, hne fs2 hl, ht, hl]
    · exact score_bound_of_eq (countHits Frame.pose (fs.take 10)) fs.length
        (by simp [predictInternal, selOf, hfs]) (countHits_take_le _ _) h10
  · refine ⟨by simp [predictInternal, hfs], by simp [predictInternal, selOf, hfs],
      fun fs2 ht hl => ?_, fun h10 => ?_⟩
    · simp [predictInternal, hfs, hne fs2 hl, ht, hl]
    · exact score_bound_of_eq (countHits Frame.hand (fs.take 10)) fs.length
        (by simp [predictInternal, selOf, hfs]) (countHits_take_le _ _) h10
  · refine ⟨by simp [predictInternal, hfs], by simp [predictInternal, selOf, hfs],
      fun fs2 ht hl => ?_, fun h10 => ?_⟩
    · simp [predictInternal, hfs, hne fs2 hl, ht, hl]
    · exact score_bound_of_eq (countHits Frame.foot (fs.take 10)) fs.length
        (by simp [predictInternal, selOf, hfs]) (countHits_take_le _ _) h10

/-- Witness for C1 at eye_gaze with 12 all-hit frames. -/
theorem C1_frame_cap_witness :
    "eye_gaze" ∈ imageBehaviors ∧
    List.replicate 12 allHit ≠ ([] : List Frame) ∧
    ((predictInternal "eye_gaze" (MLData.flist (List.replicate 12 allHit)) ()
        (⟨1/2, 7/10⟩ : RandomDraws)).frames_processed
          = some (List.replicate 12 allHit).length ∧
      (predictInternal "eye_gaze" (MLData.flist (List.replicate 12 allHit)) ()
        (⟨1/2, 7/10⟩ : RandomDraws)).predicted_score
          = min ((countHits (selOf "eye_gaze")
              ((List.replicate 12 allHit).take 10) : ℚ)
              / ((List.replicate 12 allHit).length : ℚ)) 1 ∧
      (∀ fs2 : List Frame,
        fs2.take 10 = (List.replicate 12 allHit).take 10 →
        fs2.length = (List.replicate 12 allHit).length →
        predictInternal "eye_gaze" (MLData.flist fs2) ()
            (⟨1/2, 7/10⟩ : RandomDraws)
          = predictInternal "eye_gaze" (MLData.flist (List.replicate 12 allHit))
              () (⟨1/2, 7/10⟩ : RandomDraws)) ∧
      (10 < (List.replicate 12 allHit).length →
        (predictInternal "eye_gaze" (MLData.flist (List.replicate 12 allHit)) ()
          (⟨1/2, 7/10⟩ : RandomDraws)).predicted_score
            ≤ 10 / ((List.replicate 12 allHit).length : ℚ) ∧
        (predictInternal "eye_gaze" (MLData.flist (List.replicate 12 allHit)) ()
          (⟨1/2, 7/10⟩ : RandomDraws)).predicted_score < 1)) :=
  ⟨by decide, by decide,
   C1_frame_cap "eye_gaze" () ⟨1/2, 7/10⟩ (List.replicate 12 allHit)
     (by decide) (by decide)⟩

/-- C8: an error while decoding or extracting one frame only skips
that frame — the detection counter over a batch with the bad frame
equals the counter over the batch without it, and splits as the sum
over the surrounding frames; concretely, one corrupted frame among 5
for eye_gaze still gives 4 detections over 5 processed frames. -/
theorem C8_frame_error_isolated (sel : Frame → FrameResult)
    (pre post : List Frame) (f : Frame) (hf : sel f = FrameResult.err) :
    countHits sel (pre ++ f :: post) = countHits sel (pre ++ post) ∧
    countHits sel (pre ++ f :: post) = countHits sel pre + countHits sel post ∧
    (predictInternal "eye_gaze"
      (MLData.flist [allHit, allHit, errFrame, allHit, allHit]) ()
      (⟨1/2, 7/10⟩ : RandomDraws)).valid_detections = some 4 ∧
    (predictInternal "eye_gaze"
      (MLData.flist [allHit, allHit, errFrame, allHit, allHit]) ()
      (⟨1/2, 7/10⟩ : RandomDraws)).frames_processed = some 5 := by
  refine ⟨?_, ?_, rfl, rfl⟩ <;>
    simp [countHits, List.countP_append, List.countP_cons, hf]

/-- Witness for C8: the corrupted middle frame of [hit, err, hit]. -/
theorem C8_frame_error_isolated_witness :
    Frame.eye errFrame = FrameResult.err ∧
    (countHits Frame.eye ([allHit] ++ errFrame :: [allHit])
        = countHits Frame.eye ([allHit] ++ [allHit]) ∧
      countHits Frame.eye ([allHit] ++ errFrame :: [allHit])
        = countHits Frame.eye [allHit] + countHits Frame.eye [allHit] ∧
      (predictInternal "eye_gaze"
        (MLData.flist [allHit, allHit, errFrame, allHit, allHit]) ()
        (⟨1/2, 7/10⟩ : RandomDraws)).valid_detections = some 4 ∧
      (predictInternal "eye_gaze"
        (MLData.flist [allHit, allHit, errFrame, allHit, allHit]) ()
        (⟨1/2, 7/10⟩ : RandomDraws)).frames_processed = some 5) :=
  ⟨rfl, C8_frame_error_isolated Frame.eye [allHit] [allHit] errFrame rfl⟩

/-- C9: each region extractor returns "not found" whenever the padded,
image-clamped bounding box of the detected landmarks has width or
height below the 10-pixel minimum, and returns a crop only when both
dimensions meet the threshold; the eye and hand extractors are the
shared geometry at pad 10, the foot extractor at pad 20. -/
theorem C9_small_box_rejected (pad : ℚ) (w h : ℕ) (pts : List (ℚ × ℚ)) :
    (boxW pad w pts < 10 ∨ boxH pad h pts < 10 →
      regionCrop pad w h (some pts) = none) ∧
    (∀ b, regionCrop pad w h (some pts) = some b →
      10 ≤ boxW pad w pts ∧ 10 ≤ boxH pad h pts) ∧
    eyeCrop w h (some pts) = regionCrop 10 w h (some pts) ∧
    handCrop w h (some pts) = regionCrop 10 w h (some pts) ∧
    footCrop w h (some pts) = regionCrop 20 w h (some pts) := by
  have hrej : boxW pad w pts < 10 ∨ boxH pad h pts < 10 →
      regionCrop pad w h (some pts) = none := by
    intro hsmall
    simp only [boxW, boxH] at hsmall
    simp only [regionCrop]
    rw [if_pos hsmall]
  refine ⟨hrej, ?_, rfl, rfl, rfl⟩
  intro b hb
  by_contra hc
  rw [not_and_or, not_le, not_le] at hc
  rw [hrej hc] at hb
  exact Option.noConfusion hb

/-- Witness for C9: one landmark at (2, 2) in a 5×5 image — landmarks
detected, clamped box 5 wide, crop rejected. -/
theorem C9_small_box_rejected_witness :
    (boxW 10 5 [((2 : ℚ), (2 : ℚ))] < 10 ∨
      boxH 10 5 [((2 : ℚ), (2 : ℚ))] < 10) ∧
    regionCrop 10 5 5 (some [((2 : ℚ), (2 : ℚ))]) = none ∧
    eyeCrop 5 5 (some [((2 : ℚ), (2 : ℚ))]) = none := by
  have h := C9_small_box_rejected 10 5 5 [((2 : ℚ), (2 : ℚ))]
  have hsmall : boxW 10 5 [((2 : ℚ), (2 : ℚ))] < 10 ∨
      boxH 10 5 [((2 : ℚ), (2 : ℚ))] < 10 := by
    left
    norm_num [boxW, listMin, listMax]
  exact ⟨hsmall, h.1 hsmall, by rw [h.2.2.1]; exact h.1 hsmall⟩

end MLAnalyzer
